import Mathlib

/-
Verification of the completion-client example (`examples/python/example.py`).

The whole repository is one function, `ask_ai`, that builds a JSON payload
from its arguments (dropping the optional ones that were not supplied),
POSTs it to a fixed URL with a 30-unit timeout, and extracts the `response`
field from the JSON reply, raising on transport errors, non-2xx statuses and
server-reported `error` fields.  We embed that function shallowly: JSON
values are an inductive type, the network is a function from the constructed
request to the server's observable behaviour, and Python exceptions are an
inductive type tagged with whether the `except requests.exceptions.
RequestException` clause of `ask_ai` catches them.

Library semantics baked into the model (from the `requests` library the
script imports, unpinned, so current `requests` is assumed):
* `Response.raise_for_status` raises `HTTPError` exactly when
  `400 <= status_code < 600`; other statuses (including 3xx such as 304)
  pass through silently.
* `Response.json()` on a malformed body raises
  `requests.exceptions.JSONDecodeError`, which since requests 2.27 (2022)
  subclasses `RequestException`, so the wrapper clause of `ask_ai`
  catches and rewraps it.
* `HTTPError`, `ConnectionError`/`Timeout` and `JSONDecodeError` are
  `RequestException`s; the built-in `Exception` raised for a server
  `error` field and the `KeyError`/`AttributeError` from dictionary
  access are not.
Python floats are modelled as rationals (exact for every literal the
script uses); Python dict lookup after `json.loads` is last-occurrence-wins
on duplicate keys.
-/

namespace AFM

/-- JSON values as produced by Python's `json` module: null, booleans,
numbers, strings and objects (an object is its ordered field list). -/
inductive Json where
  | null : Json
  | bool (b : Bool) : Json
  | num (q : Rat) : Json
  | str (s : String) : Json
  | obj (fields : List (String × Json)) : Json

/-- Python dictionary lookup on a JSON object decoded by `json.loads`:
on duplicate keys the last occurrence wins, so we look the key up in the
reversed field list.  `none` models a `KeyError` / `.get` returning None. -/
def dget (fields : List (String × Json)) (k : String) : Option Json :=
  fields.reverse.lookup k

/-- Python truthiness of a decoded JSON value (`if data.get('error'):`):
None, False, 0, the empty string and the empty object are falsy. -/
def truthy : Json → Bool
  | .null => false
  | .bool b => b
  | .num q => decide (q ≠ 0)
  | .str s => decide (s ≠ "")
  | .obj fields => !fields.isEmpty

/-- `isNull v` holds when a JSON value is the explicit null placeholder. -/
def isNull : Json → Bool
  | .null => true
  | _ => false

/-- Python `str()` of a decoded JSON value, used for the message of
`Exception(data['error'])`.  Only the string case is exercised by the
specification; the object rendering is abstracted. -/
def pyStr : Json → String
  | .null => "None"
  | .bool b => if b then "True" else "False"
  | .num q => toString q
  | .str s => s
  | .obj _ => "\x7bobject\x7d"

/-- The exceptions `ask_ai` can raise or propagate.  Each constructor
carries the data the program puts in the exception. -/
inductive PyExc where
  | exception (msg : String) : PyExc
  | httpError (status : Nat) : PyExc
  | connectionError (cause : String) : PyExc
  | jsonDecodeError (msg : String) : PyExc
  | keyError (key : String) : PyExc
  | attributeError (msg : String) : PyExc

/-- Whether `except requests.exceptions.RequestException` catches the
exception.  `HTTPError` (from `raise_for_status`), transport errors and —
since requests 2.27 — `requests.exceptions.JSONDecodeError` are
`RequestException`s; the built-in `Exception`, `KeyError` and
`AttributeError` are not. -/
def isRequestException : PyExc → Bool
  | .httpError _ => true
  | .connectionError _ => true
  | .jsonDecodeError _ => true
  | .exception _ => false
  | .keyError _ => false
  | .attributeError _ => false

/-- Python `str(e)` of an exception, as interpolated by
`f"Failed to connect to AI server: \x7be\x7d"`.  The transport cause is the
message the claims inspect; the renderings of the library's other
exception classes are abstracted. -/
def excStr : PyExc → String
  | .exception m => m
  | .httpError st => toString st ++ " Error"
  | .connectionError c => c
  | .jsonDecodeError m => m
  | .keyError k => k
  | .attributeError m => m

/-- The HTTP request `requests.post` is asked to send: URL, the
Content-Type header, the JSON payload and the timeout. -/
structure Request where
  url : String
  contentType : String
  payload : List (String × Json)
  timeout : Nat

/-- The body of an HTTP response as seen through `Response.json()`:
either malformed (the parse raises, with the parser's message) or a
well-formed JSON value. -/
inductive Body where
  | malformed (msg : String) : Body
  | wellFormed (j : Json) : Body

/-- The observable behaviour of the server for one request: the call to
`requests.post` either raises a transport error (connection refused,
timeout, DNS failure — carrying the underlying cause's message) or
delivers a response with a status code and a body. -/
inductive ServerBehavior where
  | unreachable (cause : String) : ServerBehavior
  | reply (status : Nat) (body : Body) : ServerBehavior

/-- `SERVER_URL` from example.py. -/
def SERVER_URL : String := "http://localhost:8080/completion"

/-- The four-entry dictionary literal built at the top of `ask_ai`, before
None values are removed: each key paired with the optional value supplied
for it (`none` when the argument was omitted). -/
def rawPayload (prompt : String) (systemPrompt : Option String)
    (temperature : Option Rat) (maxTokens : Option Int) :
    List (String × Option Json) :=
  [("prompt", some (Json.str prompt)),
   ("systemPrompt", systemPrompt.map Json.str),
   ("temperature", temperature.map Json.num),
   ("maxTokens", maxTokens.map (fun n => Json.num (n : Rat)))]

/-- The dict comprehension of `ask_ai` that removes the None values:
only the entries whose value was actually supplied survive. -/
def buildPayload (prompt : String) (systemPrompt : Option String)
    (temperature : Option Rat) (maxTokens : Option Int) :
    List (String × Json) :=
  (rawPayload prompt systemPrompt temperature maxTokens).filterMap
    (fun kv => kv.2.map (fun v => (kv.1, v)))

/-- Payload of a hypothetical `ask_ai` whose signature never had the
`max_tokens` parameter, following the spec's words "the same request body
as never having had the parameter", for comparison with
`buildPayload _ _ _ none`. -/
def buildPayloadNoMaxTokens (prompt : String) (systemPrompt : Option String)
    (temperature : Option Rat) : List (String × Json) :=
  ([("prompt", some (Json.str prompt)),
    ("systemPrompt", systemPrompt.map Json.str),
    ("temperature", temperature.map Json.num)]).filterMap
    (fun kv => kv.2.map (fun v => (kv.1, v)))

/-- The request that `ask_ai` hands to `requests.post`: the fixed server
URL, the JSON content type, the filtered payload and the fixed 30-unit
timeout. -/
def askAiRequest (prompt : String) (systemPrompt : Option String)
    (temperature : Option Rat) (maxTokens : Option Int) : Request :=
  { url := SERVER_URL
    contentType := "application/json"
    payload := buildPayload prompt systemPrompt temperature maxTokens
    timeout := 30 }

/-- `return data['response']` with its implicit `KeyError` when the
`response` key is absent. -/
def returnResponse (fields : List (String × Json)) : Except PyExc Json :=
  match dget fields "response" with
  | some r => Except.ok r
  | none => Except.error (PyExc.keyError "response")

/-- Lines 57-60 of example.py applied to the decoded object:
`if data.get('error'): raise Exception(data['error'])` followed by
`return data['response']`. -/
def extractFrom (fields : List (String × Json)) : Except PyExc Json :=
  match dget fields "error" with
  | some v =>
      if truthy v then Except.error (PyExc.exception (pyStr v))
      else returnResponse fields
  | none => returnResponse fields

/-- `data = response.json()` followed by the extraction: a malformed body
raises `requests.exceptions.JSONDecodeError`; a decoded non-object has no
`.get` attribute; a decoded object is processed by `extractFrom`. -/
def parseAndExtract : Body → Except PyExc Json
  | .malformed msg => Except.error (PyExc.jsonDecodeError msg)
  | .wellFormed (.obj fields) => extractFrom fields
  | .wellFormed _ =>
      Except.error (PyExc.attributeError "object has no attribute get")

/-- The body of the `try` block of `ask_ai` after the POST: a transport
failure raises a `RequestException` carrying the underlying cause;
otherwise `raise_for_status` raises `HTTPError` exactly when the status
is in [400, 600), and only then is the body parsed and inspected. -/
def askAiTry : ServerBehavior → Except PyExc Json
  | .unreachable cause => Except.error (PyExc.connectionError cause)
  | .reply status body =>
      if 400 ≤ status ∧ status < 600 then Except.error (PyExc.httpError status)
      else parseAndExtract body

/-- The `except requests.exceptions.RequestException as e` clause:
exceptions the clause catches are rewrapped as
`Exception(f"Failed to connect to AI server: \x7be\x7d")`; every other
exception propagates unchanged. -/
def wrapRequestException (r : Except PyExc Json) : Except PyExc Json :=
  match r with
  | Except.ok v => Except.ok v
  | Except.error e =>
      if isRequestException e
      then Except.error
        (PyExc.exception ("Failed to connect to AI server: " ++ excStr e))
      else Except.error e

/-- `ask_ai` itself, parametrised by the server's behaviour as a function
of the request it receives: build the request, run the `try` block against
the server's reaction to it, and apply the `except` clause.  The result is
the returned JSON value or the exception that escaped. -/
def askAi (prompt : String) (systemPrompt : Option String)
    (temperature : Option Rat) (maxTokens : Option Int)
    (server : Request → ServerBehavior) : Except PyExc Json :=
  wrapRequestException
    (askAiTry (server (askAiRequest prompt systemPrompt temperature maxTokens)))

/-- Whether the call failed (raised) rather than returned. -/
def isFailure : Except PyExc Json → Bool
  | Except.error _ => true
  | Except.ok _ => false

/-- The request sent by `example7_error_handling`: the intentionally wrong
port 9999, the payload with just the prompt, and a 1-unit timeout. -/
def example7Request : Request :=
  { url := "http://localhost:9999/completion"
    contentType := "application/json"
    payload := [("prompt", Json.str "Hello")]
    timeout := 1 }

/-- Key list contributed by one optional parameter: its key when the
argument was supplied, nothing when it was omitted. -/
def optKey {α : Type} (k : String) : Option α → List String
  | some _ => [k]
  | none => []

end AFM

namespace AFM

theorem wrap_error (e : PyExc) :
    wrapRequestException (Except.error e)
      = if isRequestException e
        then Except.error
          (PyExc.exception ("Failed to connect to AI server: " ++ excStr e))
        else Except.error e := rfl

theorem isFailure_wrap (r : Except PyExc Json) :
    isFailure (wrapRequestException r) = isFailure r := by
  cases r with
  | ok v => rfl
  | error e =>
      rw [wrap_error]
      by_cases h : isRequestException e = true
      · rw [if_pos h]
        rfl
      · rw [if_neg h]

theorem askAiTry_reply_ok_status (status : Nat) (body : Body)
    (h : ¬ (400 ≤ status ∧ status < 600)) :
    askAiTry (ServerBehavior.reply status body) = parseAndExtract body := by
  simp only [askAiTry]
  rw [if_neg h]

theorem extractFrom_error_str (fields : List (String × Json)) (s : String)
    (herr : dget fields "error" = some (Json.str s)) (hne : s ≠ "") :
    extractFrom fields = Except.error (PyExc.exception s) := by
  unfold extractFrom
  rw [herr]
  show (if truthy (Json.str s) = true
        then Except.error (PyExc.exception (pyStr (Json.str s)))
        else returnResponse fields) = Except.error (PyExc.exception s)
  have ht : truthy (Json.str s) = true := by simp [truthy, hne]
  rw [if_pos ht]
  rfl

theorem extractFrom_falsy_error (fields : List (String × Json))
    (herr : ∀ v, dget fields "error" = some v → truthy v = false) :
    extractFrom fields = returnResponse fields := by
  unfold extractFrom
  cases hd : dget fields "error" with
  | none => rfl
  | some v =>
      show (if truthy v = true
            then Except.error (PyExc.exception (pyStr v))
            else returnResponse fields) = returnResponse fields
      rw [if_neg (by rw [herr v hd]; exact Bool.false_ne_true)]

end AFM

namespace AFM

/-- C1: for every combination of supplied optional parameters, the payload
`ask_ai` builds has exactly the key `prompt` followed by one key per
supplied (non-None) optional parameter, binds no key to the explicit null
placeholder, and with `max_tokens` omitted equals the payload of a client
whose signature never had that parameter. -/
theorem spec_c1 (p : String) (sp : Option String) (t : Option Rat)
    (mt : Option Int) :
    ((buildPayload p sp t mt).map Prod.fst
      = "prompt" :: (optKey "systemPrompt" sp ++ optKey "temperature" t
          ++ optKey "maxTokens" mt))
    ∧ ((buildPayload p sp t mt).all (fun kv => !(isNull kv.2)) = true)
    ∧ buildPayload p sp t none = buildPayloadNoMaxTokens p sp t := by
  cases sp <;> cases t <;> cases mt <;> exact ⟨rfl, rfl, rfl⟩

/-- C2: if the server answers the built request with HTTP 200 and the JSON
body holding the single field `response` bound to X (so no `error` field),
`ask_ai` returns X. -/
theorem spec_c2 (p X : String) (sp : Option String) (t : Option Rat)
    (mt : Option Int) (server : Request → ServerBehavior)
    (h : server (askAiRequest p sp t mt)
      = ServerBehavior.reply 200
          (Body.wellFormed (Json.obj [("response", Json.str X)]))) :
    askAi p sp t mt server = Except.ok (Json.str X) := by
  unfold askAi
  rw [h]
  rfl

/-- C2 witness: a concrete 200 reply with response "X" returns "X". -/
theorem spec_c2_witness :
    askAi "hi" none none none
      (fun _ => ServerBehavior.reply 200
        (Body.wellFormed (Json.obj [("response", Json.str "X")])))
      = Except.ok (Json.str "X") :=
  spec_c2 "hi" "X" none none none _ rfl

/-- C3: a success-status (2xx) response whose JSON object body binds
`error` to a non-empty string s makes `ask_ai` fail with the built-in
`Exception` whose message is exactly s. -/
theorem spec_c3 (p s : String) (sp : Option String) (t : Option Rat)
    (mt : Option Int) (server : Request → ServerBehavior)
    (status : Nat) (fields : List (String × Json))
    (hst : 200 ≤ status ∧ status < 300)
    (hresp : server (askAiRequest p sp t mt)
      = ServerBehavior.reply status (Body.wellFormed (Json.obj fields)))
    (herr : dget fields "error" = some (Json.str s)) (hne : s ≠ "") :
    askAi p sp t mt server = Except.error (PyExc.exception s) := by
  unfold askAi
  rw [hresp, askAiTry_reply_ok_status status _ (by omega)]
  show wrapRequestException (extractFrom fields) = _
  rw [extractFrom_error_str fields s herr hne]
  rfl

/-- C3 witness: HTTP 200 with error "bad prompt" fails with message
"bad prompt". -/
theorem spec_c3_witness :
    askAi "p" none none none
      (fun _ => ServerBehavior.reply 200
        (Body.wellFormed (Json.obj [("error", Json.str "bad prompt")])))
      = Except.error (PyExc.exception "bad prompt") :=
  spec_c3 "p" "bad prompt" none none none _ 200 _ (by omega) rfl rfl
    (by decide)

/-- C4 counterexample: HTTP 200 with the body binding `error` to the
empty string (and `response` to "ok"): the `error` key is present, yet
`ask_ai` succeeds, because `if data.get('error'):` tests Python
truthiness and the empty string is falsy — so presence of the field alone
does not trigger client-side failure, contrary to the claim. -/
theorem spec_c4_cex :
    askAi "p" none none none
      (fun _ => ServerBehavior.reply 200 (Body.wellFormed
        (Json.obj [("error", Json.str ""), ("response", Json.str "ok")])))
      = Except.ok (Json.str "ok")
    ∧ isFailure (askAi "p" none none none
        (fun _ => ServerBehavior.reply 200 (Body.wellFormed
          (Json.obj [("error", Json.str ""), ("response", Json.str "ok")]))))
        = false := ⟨rfl, rfl⟩

/-- C4 (amended): for every response whose JSON object body binds `error`
to a truthy value (e.g. a non-empty string), `ask_ai` fails, regardless of
the HTTP status code; a falsy value such as the empty string does not
trigger this error branch. -/
theorem spec_c4_amended (p : String) (sp : Option String) (t : Option Rat)
    (mt : Option Int) (server : Request → ServerBehavior)
    (status : Nat) (fields : List (String × Json)) (v : Json)
    (hresp : server (askAiRequest p sp t mt)
      = ServerBehavior.reply status (Body.wellFormed (Json.obj fields)))
    (herr : dget fields "error" = some v) (htr : truthy v = true) :
    isFailure (askAi p sp t mt server) = true := by
  unfold askAi
  rw [hresp, isFailure_wrap]
  by_cases hc : 400 ≤ status ∧ status < 600
  · simp only [askAiTry]
    rw [if_pos hc]
    rfl
  · rw [askAiTry_reply_ok_status status _ hc]
    show isFailure (extractFrom fields) = true
    unfold extractFrom
    rw [herr]
    show isFailure (if truthy v = true
      then Except.error (PyExc.exception (pyStr v))
      else returnResponse fields) = true
    rw [if_pos htr]
    rfl

/-- C4 witness: a truthy error value at HTTP 200 fails. -/
theorem spec_c4_witness :
    isFailure (askAi "p" none none none
      (fun _ => ServerBehavior.reply 200
        (Body.wellFormed (Json.obj [("error", Json.str "x")])))) = true :=
  spec_c4_amended "p" none none none _ 200 _ (Json.str "x") rfl rfl rfl

/-- C5 counterexample: a 304 response (non-2xx) with body response = "X"
is not raised by `raise_for_status`, whose condition is 400 ≤ status <
600; `ask_ai` parses the body and returns "X" instead of failing, contrary
to the claim that every non-2xx status fails. -/
theorem spec_c5_cex :
    askAi "p" none none none
      (fun _ => ServerBehavior.reply 304
        (Body.wellFormed (Json.obj [("response", Json.str "X")])))
      = Except.ok (Json.str "X")
    ∧ isFailure (askAi "p" none none none
        (fun _ => ServerBehavior.reply 304
          (Body.wellFormed (Json.obj [("response", Json.str "X")]))))
        = false := ⟨rfl, rfl⟩

/-- C5 (amended): for every response with a 4xx or 5xx status (400 ≤
status < 600), `ask_ai` fails via the raise-for-status check performed
before the body is parsed, and the try-block's outcome at such a status is
the HTTPError regardless of the body's content; statuses outside
[400, 600), such as 3xx, do not trigger the check. -/
theorem spec_c5_amended (p : String) (sp : Option String) (t : Option Rat)
    (mt : Option Int) (server : Request → ServerBehavior)
    (status : Nat) (body : Body)
    (h4 : 400 ≤ status) (h6 : status < 600)
    (hresp : server (askAiRequest p sp t mt)
      = ServerBehavior.reply status body) :
    askAi p sp t mt server
      = Except.error (PyExc.exception
          ("Failed to connect to AI server: " ++ excStr (PyExc.httpError status)))
    ∧ ∀ b2 : Body, askAiTry (ServerBehavior.reply status b2)
        = Except.error (PyExc.httpError status) := by
  constructor
  · unfold askAi
    rw [hresp]
    simp only [askAiTry]
    rw [if_pos ⟨h4, h6⟩]
    rfl
  · intro b2
    simp only [askAiTry]
    rw [if_pos ⟨h4, h6⟩]

/-- C5 witness: a concrete 500 reply fails with the wrapped HTTPError. -/
theorem spec_c5_witness :
    askAi "p" none none none
      (fun _ => ServerBehavior.reply 500 (Body.wellFormed (Json.obj [])))
      = Except.error (PyExc.exception
          ("Failed to connect to AI server: " ++ excStr (PyExc.httpError 500))) :=
  (spec_c5_amended "p" none none none _ 500 _ (by omega) (by omega) rfl).1

/-- C6: when the POST itself fails at the transport level with some
underlying cause, `ask_ai` fails with the wrapped Exception whose message
is the underlying cause prefixed by "Failed to connect to AI server: ". -/
theorem spec_c6 (p : String) (sp : Option String) (t : Option Rat)
    (mt : Option Int) (server : Request → ServerBehavior) (cause : String)
    (h : server (askAiRequest p sp t mt) = ServerBehavior.unreachable cause) :
    askAi p sp t mt server
      = Except.error (PyExc.exception
          ("Failed to connect to AI server: " ++ cause)) := by
  unfold askAi
  rw [h]
  rfl

/-- C6 witness: a concrete connection-refused failure is wrapped. -/
theorem spec_c6_witness :
    askAi "p" none none none
      (fun _ => ServerBehavior.unreachable "connection refused")
      = Except.error (PyExc.exception
          ("Failed to connect to AI server: connection refused")) :=
  spec_c6 "p" none none none _ "connection refused" rfl

/-- C7 counterexample: HTTP 200 with a malformed JSON body: the
JSONDecodeError raised by `response.json()` is, since requests 2.27, a
RequestException, so the except clause catches it and rewraps it with the
transport-error prefix — it does not propagate unhandled as the claim
states. -/
theorem spec_c7_cex :
    askAi "p" none none none
      (fun _ => ServerBehavior.reply 200 (Body.malformed "Expecting value"))
      = Except.error (PyExc.exception
          ("Failed to connect to AI server: Expecting value")) := rfl

/-- C7 (amended): for every success-status response whose body is not
well-formed JSON, the JSON parse error is caught by the
RequestException handler and rewrapped as the transport-error message
carrying the parser's message (behaviour of requests ≥ 2.27, where
`requests.exceptions.JSONDecodeError` subclasses RequestException). -/
theorem spec_c7_amended (p : String) (sp : Option String) (t : Option Rat)
    (mt : Option Int) (server : Request → ServerBehavior)
    (status : Nat) (msg : String)
    (hst : 200 ≤ status ∧ status < 300)
    (hresp : server (askAiRequest p sp t mt)
      = ServerBehavior.reply status (Body.malformed msg)) :
    askAi p sp t mt server
      = Except.error (PyExc.exception
          ("Failed to connect to AI server: " ++ msg)) := by
  unfold askAi
  rw [hresp, askAiTry_reply_ok_status status _ (by omega)]
  rfl

/-- C7 witness: a concrete malformed body at HTTP 200 is rewrapped. -/
theorem spec_c7_witness :
    askAi "p" none none none
      (fun _ => ServerBehavior.reply 200 (Body.malformed "bad json"))
      = Except.error (PyExc.exception
          ("Failed to connect to AI server: bad json")) :=
  spec_c7_amended "p" none none none _ 200 "bad json" (by omega) rfl

/-- C8: the client adds no nondeterminism of its own: two sequential calls
with the identical prompt and temperature 0.0 build the same request, so
against any two server instants that behave as the same deterministic
function of the request, they return identical results. -/
theorem spec_c8 (p : String) (serverA serverB : Request → ServerBehavior)
    (hdet : ∀ r, serverA r = serverB r) :
    askAi p none (some 0) none serverA = askAi p none (some 0) none serverB := by
  unfold askAi
  rw [hdet]

/-- C8 witness: two runs against the same deterministic server agree. -/
theorem spec_c8_witness :
    askAi "q" none (some 0) none
      (fun _ => ServerBehavior.reply 200
        (Body.wellFormed (Json.obj [("response", Json.str "A")])))
      = askAi "q" none (some 0) none
        (fun _ => ServerBehavior.reply 200
          (Body.wellFormed (Json.obj [("response", Json.str "A")]))) :=
  spec_c8 "q" _ _ (fun _ => rfl)

/-- C9: every normal `ask_ai` call sends its POST with the fixed timeout
30, while the error-handling example's request uses timeout 1 against the
intentionally wrong port 9999. -/
theorem spec_c9 :
    (∀ (p : String) (sp : Option String) (t : Option Rat) (mt : Option Int),
      (askAiRequest p sp t mt).timeout = 30)
    ∧ example7Request.timeout = 1
    ∧ example7Request.url = "http://localhost:9999/completion" :=
  ⟨fun _ _ _ _ => rfl, rfl, rfl⟩

/-- C10: a success-status response whose JSON object body has no truthy
`error` field and no `response` key makes `ask_ai` fail with the
missing-key lookup error (KeyError on "response"), which is not a
RequestException and therefore propagates without the transport-error
wrapping. -/
theorem spec_c10 (p : String) (sp : Option String) (t : Option Rat)
    (mt : Option Int) (server : Request → ServerBehavior)
    (status : Nat) (fields : List (String × Json))
    (hst : 200 ≤ status ∧ status < 300)
    (hresp : server (askAiRequest p sp t mt)
      = ServerBehavior.reply status (Body.wellFormed (Json.obj fields)))
    (herr : ∀ v, dget fields "error" = some v → truthy v = false)
    (hnor : dget fields "response" = none) :
    askAi p sp t mt server = Except.error (PyExc.keyError "response") := by
  unfold askAi
  rw [hresp, askAiTry_reply_ok_status status _ (by omega)]
  show wrapRequestException (extractFrom fields) = _
  rw [extractFrom_falsy_error fields herr]
  unfold returnResponse
  rw [hnor]
  rfl

/-- C10 witness: a 200 reply whose body is the empty object fails with
KeyError on "response". -/
theorem spec_c10_witness :
    askAi "p" none none none
      (fun _ => ServerBehavior.reply 200 (Body.wellFormed (Json.obj [])))
      = Except.error (PyExc.keyError "response") :=
  spec_c10 "p" none none none _ 200 [] (by omega) rfl
    (fun v h => Option.noConfusion h) rfl

end AFM
